import Mathlib

/-!
Verification of the browser-orchestration layer (BrowserManager in
src/browser_agent/browser.py) against its natural-language specification.
Python methods are shallowly embedded as Lean functions; the underlying
page-automation driver is abstracted as explicit page models, and Python
exceptions are modelled with Except.
-/

namespace BrowserAgent

/-! ## Point parser (BrowserManager._parse_point) -/

/-- Replacement of every non-overlapping occurrence of pat, scanning left to
right and continuing after each inserted replacement, as the str.replace
builtin behaves.  The fuel argument is instantiated with the length of the
scanned list, which bounds the number of scan positions, so the function is
structurally recursive and evaluates in the kernel. -/
def replaceGo (pat rep : List Char) : Nat → List Char → List Char
  | _, [] => []
  | 0, l => l
  | fuel + 1, c :: cs =>
    if pat.isPrefixOf (c :: cs) && !pat.isEmpty then
      rep ++ replaceGo pat rep fuel ((c :: cs).drop pat.length)
    else
      c :: replaceGo pat rep fuel cs

/-- str.replace on strings, via replaceGo. -/
def strReplace (s pat rep : String) : String :=
  String.mk (replaceGo pat.toList rep.toList s.toList.length s.toList)

/-- str.strip: drop leading and trailing whitespace. -/
def trimList (l : List Char) : List Char :=
  ((l.dropWhile Char.isWhitespace).reverse.dropWhile Char.isWhitespace).reverse

/-- One pass of the regex scan for the pattern of an optional minus sign
followed by one or more digits, as re.findall applies it: leftmost,
non-overlapping, maximal digit runs.  The second argument holds the
reversed characters of the token currently being read, if any. -/
def findIntsGo : List Char → Option (List Char) → List (List Char)
  | [], none => []
  | [], some cur => [cur.reverse]
  | c :: cs, some cur =>
    if c.isDigit then findIntsGo cs (some (c :: cur))
    else
      cur.reverse ::
        (if c = '-' then
          match cs with
          | [] => []
          | d :: _ => if d.isDigit then findIntsGo cs (some [c]) else findIntsGo cs none
        else findIntsGo cs none)
  | c :: cs, none =>
    if c.isDigit then findIntsGo cs (some [c])
    else if c = '-' then
      match cs with
      | [] => []
      | d :: _ => if d.isDigit then findIntsGo cs (some [c]) else findIntsGo cs none
    else findIntsGo cs none

/-- All matches of an optional minus sign followed by one or more digits,
in order of appearance: the embedding of re.findall applied to the
cleaned point string. -/
def findIntTokens (l : List Char) : List (List Char) :=
  findIntsGo l none

/-- Decimal value of a digit run. -/
def digitsVal (ds : List Char) : Nat :=
  ds.foldl (fun acc c => acc * 10 + (c.toNat - 48)) 0

/-- Integer value of one matched token (with its optional minus sign). -/
def intOfToken (t : List Char) : Int :=
  match t with
  | '-' :: ds => -(digitsVal ds : Int)
  | ds => (digitsVal ds : Int)

/-- The tag-stripping and whitespace-stripping prefix of _parse_point:
removes the HTML-escaped and literal point wrapper tags, in the order the
source applies the replacements, then trims surrounding whitespace. -/
def cleanPoint (point : String) : String :=
  String.mk (trimList (strReplace (strReplace (strReplace (strReplace point
    "&lt;point&gt;" "") "&lt;/point&gt;" "") "<point>" "") "</point>" "").toList)

/-- BrowserManager._parse_point: strip the wrapper tags, extract the integer
tokens, and return the first two; with fewer than two tokens it raises
ValueError, modelled as Except.error carrying the message text. -/
def parse_point (point : String) : Except String (Int × Int) :=
  match findIntTokens (cleanPoint point).toList with
  | a :: b :: _ => Except.ok (intOfToken a, intOfToken b)
  | _ => Except.error ("Invalid point format: " ++ point)

/-! ## Click action (BrowserManager.click)

The underlying page-automation driver is abstracted as a ClickPage record of
query capabilities; the dispatch logic of the click method is embedded
faithfully.  String-typed mode dispatch becomes a closed inductive, so the
unreachable unknown-mode fallthrough of the source has no counterpart.
Quote characters around mode names in the argument-guard messages of the
source are omitted here. -/

/-- Closed embedding of the Literal mode strings accepted by click. -/
inductive ClickMode
  | text
  | selector
  | coordinates
deriving DecidableEq

/-- Driver capabilities that the click method consults: locator counts by
accessible role and by text, selector resolution, whether the underlying
click raises a driver timeout, and the page url observed after the action. -/
structure ClickPage where
  roleCount : String → String → Bool → Nat
  textCount : String → Bool → Nat
  hasSelector : String → Bool
  clickTimesOut : Bool
  timeoutDetail : String
  url : String

/-- A click dispatched to the underlying driver. -/
inductive ClickEffect
  | roleClick (role : String) (t : String)
  | textClick (t : String)
  | selectorClick (sel : String)
  | mouseClick (x y : Int)
deriving DecidableEq

/-- The structured dictionaries that click returns. -/
inductive ClickReturn
  | missingArg (msg : String)
  | notFound (msg : String)
  | timeout (mode : String) (details : String)
  | clickedText (role : Option String) (t : String) (url_after : String)
  | clickedSelector (sel : String) (url_after : String)
  | clickedCoordinates (x y : Int) (url_after : String)
deriving DecidableEq

/-- Either a structured return value, or an uncaught exception propagating to
the caller (only the driver timeout is caught by the except clause of the
source; a ValueError from the point parser is not). -/
inductive ClickOutcome
  | payload (r : ClickReturn)
  | raised (msg : String)
deriving DecidableEq

/-- Truthiness of an optional string argument, as the guards of the source
use it: None and the empty string are both falsy. -/
def strArgMissing : Option String → Bool
  | none => true
  | some s => s == ""

/-- BrowserManager.click: three-way dispatch with argument guards, not-found
structured errors, timeout caught as a structured error, and the parse
error of mode coordinates propagating.  Returns the outcome together with
the list of clicks dispatched to the driver. -/
def click (pg : ClickPage) (mode : ClickMode) (text selector coordinates : Option String)
    (exact : Bool) : ClickOutcome × List ClickEffect :=
  match mode with
  | ClickMode.text =>
    if strArgMissing text then
      (ClickOutcome.payload (ClickReturn.missingArg "mode=text requires: text"), [])
    else
      let t := text.getD ""
      if pg.roleCount "button" t exact > 0 then
        if pg.clickTimesOut then
          (ClickOutcome.payload (ClickReturn.timeout "text" pg.timeoutDetail),
            [ClickEffect.roleClick "button" t])
        else
          (ClickOutcome.payload (ClickReturn.clickedText (some "button") t pg.url),
            [ClickEffect.roleClick "button" t])
      else if pg.roleCount "link" t exact > 0 then
        if pg.clickTimesOut then
          (ClickOutcome.payload (ClickReturn.timeout "text" pg.timeoutDetail),
            [ClickEffect.roleClick "link" t])
        else
          (ClickOutcome.payload (ClickReturn.clickedText (some "link") t pg.url),
            [ClickEffect.roleClick "link" t])
      else if pg.textCount t exact = 0 then
        (ClickOutcome.payload
          (ClickReturn.notFound ("No element found containing text: " ++ t)), [])
      else if pg.clickTimesOut then
        (ClickOutcome.payload (ClickReturn.timeout "text" pg.timeoutDetail),
          [ClickEffect.textClick t])
      else
        (ClickOutcome.payload (ClickReturn.clickedText none t pg.url),
          [ClickEffect.textClick t])
  | ClickMode.selector =>
    if strArgMissing selector then
      (ClickOutcome.payload (ClickReturn.missingArg "mode=selector requires: selector"), [])
    else
      let sel := selector.getD ""
      if pg.hasSelector sel then
        if pg.clickTimesOut then
          (ClickOutcome.payload (ClickReturn.timeout "selector" pg.timeoutDetail),
            [ClickEffect.selectorClick sel])
        else
          (ClickOutcome.payload (ClickReturn.clickedSelector sel pg.url),
            [ClickEffect.selectorClick sel])
      else
        (ClickOutcome.payload
          (ClickReturn.notFound ("No element found for selector: " ++ sel)), [])
  | ClickMode.coordinates =>
    if strArgMissing coordinates then
      (ClickOutcome.payload
        (ClickReturn.missingArg "mode=coordinates requires: coordinates"), [])
    else
      let c := coordinates.getD ""
      match parse_point c with
      | Except.error m => (ClickOutcome.raised m, [])
      | Except.ok (x, y) =>
        if pg.clickTimesOut then
          (ClickOutcome.payload (ClickReturn.timeout "coordinates" pg.timeoutDetail),
            [ClickEffect.mouseClick x y])
        else
          (ClickOutcome.payload (ClickReturn.clickedCoordinates x y pg.url),
            [ClickEffect.mouseClick x y])

/-! ## Session lifecycle (BrowserManager.init, close) -/

/-- The five manager attributes set in the constructor, each modelled as a
flag recording whether a live reference is held (started is the flag
itself). -/
structure ManagerState where
  playwright : Bool
  driver : Bool
  context : Bool
  active_page : Bool
  started : Bool
deriving DecidableEq

/-- Attribute values assigned by the constructor. -/
def initialState : ManagerState := ⟨false, false, false, false, false⟩

/-- State of a manager whose init has completed. -/
def readyState : ManagerState := ⟨true, true, true, true, true⟩

/-- Which of the three teardown calls raise when attempted. -/
structure TeardownFaults where
  contextFails : Bool
  driverFails : Bool
  playwrightFails : Bool
deriving DecidableEq

/-- No teardown call raises. -/
def noFaults : TeardownFaults := ⟨false, false, false⟩

/-- Outcome of one close call: the value returned or exception propagated,
the attribute values after the finally block, and the teardown calls that
were actually attempted, in order. -/
structure CloseRun where
  result : Except String String
  state : ManagerState
  attempted : List String

/-- BrowserManager.close: a single try block attempts context.close,
driver.close, playwright.stop in order, guarded by the truthiness of each
reference; the first raising call aborts the rest of the try body and its
exception propagates after the finally block runs; the finally block always
resets all five attributes; the Closed string is returned only when no
teardown raised. -/
def close (st : ManagerState) (f : TeardownFaults) : CloseRun :=
  let a1 := if st.context then ["context.close"] else []
  if st.context && f.contextFails then
    ⟨Except.error "context close failed", initialState, a1⟩
  else
    let a2 := a1 ++ if st.driver then ["driver.close"] else []
    if st.driver && f.driverFails then
      ⟨Except.error "driver close failed", initialState, a2⟩
    else
      let a3 := a2 ++ if st.playwright then ["playwright.stop"] else []
      if st.playwright && f.playwrightFails then
        ⟨Except.error "playwright stop failed", initialState, a3⟩
      else
        ⟨Except.ok "Closed", initialState, a3⟩

/-- BrowserManager.init run without interleaving: a no-op when started is
already set, otherwise it creates the full session; the Nat counts browser
processes launched by the call. -/
def initSeq (st : ManagerState) : ManagerState × Nat :=
  if st.started then (st, 0) else (readyState, 1)

/-! ## Concurrent start (BrowserManager.init under the event loop)

Two tasks each run ensure-started followed by init.  Both read the started
flag with no suspension between them, so the pair of checks is one atomic
step; every await in init is a suspension point at which the other task may
run.  A schedule is the list of choices of which task performs its next
step; the launches counter counts executions of the chromium launch line. -/

/-- Program counter of one task running init: before the started check,
after the playwright start await, after the launch await, after the
new-context await, and done (the new-page await, the timeout call and the
assignment of started happen in the step into finished). -/
inductive TaskPc
  | ready
  | gotPw
  | gotDriver
  | gotContext
  | finished
deriving DecidableEq

/-- Shared flag, launch count, and the two program counters. -/
structure ConcState where
  started : Bool
  launches : Nat
  t1 : TaskPc
  t2 : TaskPc
deriving DecidableEq

/-- One step of a single task: the started check returns early when the flag
is set; completing the launch await increments the launch count; completing
the new-page await sets the started flag. -/
def stepPc : TaskPc → Bool → Nat → TaskPc × Bool × Nat
  | TaskPc.ready, started, n =>
    if started then (TaskPc.finished, started, n) else (TaskPc.gotPw, started, n)
  | TaskPc.gotPw, started, n => (TaskPc.gotDriver, started, n + 1)
  | TaskPc.gotDriver, started, n => (TaskPc.gotContext, started, n)
  | TaskPc.gotContext, _, n => (TaskPc.finished, true, n)
  | TaskPc.finished, started, n => (TaskPc.finished, started, n)

/-- Advance the chosen task by one step. -/
def stepTask (s : ConcState) (which : Bool) : ConcState :=
  if which then
    let r := stepPc s.t1 s.started s.launches
    ⟨r.2.1, r.2.2, r.1, s.t2⟩
  else
    let r := stepPc s.t2 s.started s.launches
    ⟨r.2.1, r.2.2, s.t1, r.1⟩

/-- Run a schedule of task choices. -/
def runSched : List Bool → ConcState → ConcState
  | [], s => s
  | w :: ws, s => runSched ws (stepTask s w)

/-- Both tasks about to issue their first start on a fresh manager. -/
def initConc : ConcState := ⟨false, 0, TaskPc.ready, TaskPc.ready⟩

/-- Task one runs to completion before task two begins. -/
def seqSched : List Bool := [true, true, true, true, false]

/-- The two tasks alternate, both passing the started check before either
sets the flag. -/
def raceSched : List Bool := [true, false, true, false, true, false, true, false]

/-- Number of launches a task can still perform: one before its launch await
has completed, none after. -/
def remainingLaunch : TaskPc → Nat
  | TaskPc.ready => 1
  | TaskPc.gotPw => 1
  | _ => 0

/-- Launches performed so far plus launches still possible. -/
def launchPotential (s : ConcState) : Nat :=
  s.launches + remainingLaunch s.t1 + remainingLaunch s.t2

/-! ## State snapshot (BrowserManager.get_state) -/

/-- Bounding client rect of a DOM node, in page coordinates. -/
structure Rect where
  x : ℚ
  y : ℚ
  width : ℚ
  height : ℚ
deriving DecidableEq

/-- A node matched by the interactive-element query of the in-page script,
in document order. -/
structure DomNode where
  tag : String
  innerText : Option String
  ariaLabel : Option String
  rect : Rect
deriving DecidableEq

/-- The record the in-page script builds for one matched node. -/
structure InteractiveElement where
  id : Nat
  tag : String
  text : Option String
  aria : Option String
  rect : Rect
deriving DecidableEq

/-- Page state that get_state observes: url, screenshot bytes, and the
document nodes matched by the interactive-element query. -/
structure StatePage where
  url : String
  screenshotB64 : String
  dom : List DomNode

/-- The dictionary get_state returns. -/
structure StateResult where
  page_url : String
  page_screenshot_base64 : String
  interactive_elements : List InteractiveElement

/-- BrowserManager._extract_interactive_elements: the map of the in-page
script over every matched node, with the sequential index as id and the
inner text cut to its first 100 characters. -/
def extract_interactive_elements (doc : List DomNode) : List InteractiveElement :=
  ((List.range doc.length).zip doc).map fun p =>
    ⟨p.1, p.2.tag, p.2.innerText.map (fun t => String.mk (t.toList.take 100)),
      p.2.ariaLabel, p.2.rect⟩

/-- BrowserManager.get_state: url, data-uri screenshot, and the element list
exactly as the extraction produced it. -/
def get_state (pg : StatePage) : StateResult :=
  ⟨pg.url, "data:image/png;base64," ++ pg.screenshotB64,
    extract_interactive_elements pg.dom⟩

/-! ## Scroll (BrowserManager.scroll)

The helpers _get_scroll_metrics and _get_viewport_anchor are called by
scroll but are not present in the repository sources; the ScrollMetrics
shape and the isAtBottom and anchor meanings below are modelled from the
spec. -/

/-- Truncation toward zero, as the int builtin converts a float. -/
def pyTrunc (q : ℚ) : Int :=
  if 0 ≤ q then ⌊q⌋ else -⌊-q⌋

/-- Modelled from the spec: the ScrollMetrics snapshot produced by the
missing helper _get_scroll_metrics, holding scroll position, document
height, viewport height and the at-bottom flag. -/
structure ScrollMetrics where
  scrollY : Int
  docH : Int
  viewportH : Int
  atBottom : Bool
deriving DecidableEq

/-- The overlap clamp applied once at the top of scroll. -/
def clamp_overlap (overlap : ℚ) : ℚ :=
  max 0 (min overlap (1 / 2))

/-- Scroll directions accepted by scroll. -/
inductive Direction
  | down
  | up
  | left
  | right
deriving DecidableEq

/-- String form of a direction, echoed in the response. -/
def dirStr : Direction → String
  | Direction.down => "down"
  | Direction.up => "up"
  | Direction.left => "left"
  | Direction.right => "right"

/-- One scrollBy delta of step mode and of the scan loop: the step magnitude
is the viewport height times one minus the clamped overlap, truncated to an
integer, applied along the chosen axis. -/
def step_delta (viewportH : Int) (ov : ℚ) (d : Direction) : Int × Int :=
  let step_px := pyTrunc ((viewportH : ℚ) * (1 - ov))
  match d with
  | Direction.down => ((0 : Int), step_px)
  | Direction.up => ((0 : Int), -step_px)
  | Direction.right => (step_px, (0 : Int))
  | Direction.left => (-step_px, (0 : Int))

/-- The scrollBy deltas dispatched by step mode: the loop runs
max 1 steps times with the same delta. -/
def step_scroll_moves (viewportH : Int) (overlap : ℚ) (d : Direction)
    (steps : Int) : List (Int × Int) :=
  List.replicate (max 1 steps).toNat (step_delta viewportH (clamp_overlap overlap) d)

/-- The percent-mode target computation: clamp percent to the unit range of
0 to 100, scale the scrollable range, truncate to an integer, and re-clamp
into the valid offset range. -/
def percent_scroll_target (before : ScrollMetrics) (percent : ℚ) : Int :=
  let p := max 0 (min percent 100)
  let target := pyTrunc (((before.docH : ℚ) - (before.viewportH : ℚ)) * (p / 100))
  max 0 (min target (max 0 (before.docH - before.viewportH)))

/-- A node found by the text-search script, with its bounding rect top
relative to the viewport at query time. -/
structure FoundNode where
  tag : String
  text : String
  top : ℚ
deriving DecidableEq

/-- Page abstraction for the to-text scan: fixed document and viewport
heights, the first matching content node as a function of the needle and
the current scroll position, and the anchor text as a function of the
final position (the anchor function is modelled from the spec, standing for
the missing helper _get_viewport_anchor). -/
structure ScanPage where
  docH : Int
  viewportH : Int
  findAt : String → ℚ → Option FoundNode
  anchorAt : ℚ → String

/-- Largest valid vertical scroll offset of the page. -/
def maxScrollQ (p : ScanPage) : ℚ :=
  max 0 ((p.docH : ℚ) - (p.viewportH : ℚ))

/-- Browser clamping of a requested scroll position into the valid range. -/
def clampScroll (p : ScanPage) (t : ℚ) : ℚ :=
  max 0 (min t (maxScrollQ p))

/-- Modelled from the spec: the isAtBottom field of the metrics snapshot,
true when the viewport bottom has reached the document height. -/
def atBottomQ (p : ScanPage) (sy : ℚ) : Bool :=
  decide ((p.docH : ℚ) ≤ sy + (p.viewportH : ℚ))

/-- The scan loop of to-text mode, recursing on the remaining attempt
budget: each iteration queries for the needle; on a match the page is
scrolled so the node sits twenty percent of the viewport from the top and
the loop stops; otherwise, scrolling down at the page bottom stops the
loop without success; otherwise one overlap-sized step is applied and the
loop retries.  Returns the node found, the final scroll position, and the
number of queries performed. -/
def scanLoop (p : ScanPage) (needle : String) (d : Direction) (ov : ℚ) :
    Nat → ℚ → Option FoundNode × ℚ × Nat
  | 0, sy => (none, sy, 0)
  | fuel + 1, sy =>
    match p.findAt needle sy with
    | some node =>
      (some node, clampScroll p (sy + node.top - (p.viewportH : ℚ) * (1 / 5)), 1)
    | none =>
      if atBottomQ p sy && decide (d = Direction.down) then
        (none, sy, 1)
      else
        let dy := (step_delta p.viewportH ov d).2
        let r := scanLoop p needle d ov fuel (clampScroll p (sy + (dy : ℚ)))
        (r.1, r.2.1, r.2.2 + 1)

/-- The response dictionary of scroll, with the mode-specific echo fields as
options. -/
structure ScrollResponse where
  status : String
  mode : String
  direction : String
  scrollY_before : ℚ
  scrollY_after : ℚ
  docH : Int
  viewportH : Int
  atBottom : Bool
  anchor : String
  target_text : Option String
  target_selector : Option String
deriving DecidableEq

/-- A scroll call returns either the ok response or the status-error
dictionary with a message. -/
inductive ScrollResult
  | ok (r : ScrollResponse)
  | err (message : String)
deriving DecidableEq

/-- The to-text branch of BrowserManager.scroll: argument guards, the scan
loop, and the response assembled from the final metrics, the anchor, and
the echoed target text.  Quote characters of the guard messages are
omitted. -/
def scroll_to_text (p : ScanPage) (d : Direction) (overlap : ℚ) (text : Option String)
    (max_steps : Nat) (sy0 : ℚ) : ScrollResult :=
  if strArgMissing text then
    ScrollResult.err "text is required for mode=to_text"
  else
    let t := text.getD ""
    let needle := String.mk (trimList t.toList)
    if needle = "" then
      ScrollResult.err "text is empty"
    else
      let ov := clamp_overlap overlap
      let r := scanLoop p needle d ov max_steps sy0
      ScrollResult.ok
        ⟨"ok", "to_text", dirStr d, sy0, r.2.1, p.docH, p.viewportH,
          atBottomQ p r.2.1, p.anchorAt r.2.1, some t, none⟩

/-! ## Concrete instances used by witnesses and counterexamples -/

/-- A page on which every query comes back empty and no click times out. -/
def samplePage : ClickPage :=
  ⟨fun _ _ _ => 0, fun _ _ => 0, fun _ => false, false, "", "https://example.com"⟩

/-- An anchor element with no text and an empty bounding rect. -/
def sampleNode : DomNode := ⟨"A", none, none, ⟨0, 0, 0, 0⟩⟩

/-- A document whose interactive-element query matches 41 nodes. -/
def page41 : StatePage := ⟨"https://example.com", "img", List.replicate 41 sampleNode⟩

/-- A page whose text search finds a node at once. -/
def scanPageFound : ScanPage :=
  ⟨2000, 800, fun _ _ => some ⟨"P", "Contact us", 100⟩, fun _ => "anchor"⟩

/-- A short page on which the text search never finds the needle and the
viewport is already at the bottom. -/
def scanPageEmpty : ScanPage :=
  ⟨400, 800, fun _ _ => none, fun _ => "anchor"⟩

/-- Sample metrics of a page taller than its viewport. -/
def sampleMetrics : ScrollMetrics := ⟨0, 2000, 800, false⟩

/-! ## Helper lemmas -/

/-- Truncation toward zero is the identity on integers. -/
theorem pyTrunc_intCast (n : ℤ) : pyTrunc (n : ℚ) = n := by
  unfold pyTrunc
  rcases le_or_lt 0 (n : ℚ) with h | h
  · rw [if_pos h, Int.floor_intCast]
  · rw [if_neg (not_le.mpr h), ← Int.cast_neg, Int.floor_intCast, neg_neg]

/-- One scheduler step never increases the launch potential. -/
theorem launchPotential_step (s : ConcState) (w : Bool) :
    launchPotential (stepTask s w) ≤ launchPotential s := by
  obtain ⟨st, n, p1, p2⟩ := s
  cases w
  · cases p2 <;> cases st <;>
      simp [stepTask, stepPc, launchPotential, remainingLaunch] <;> omega
  · cases p1 <;> cases st <;>
      simp [stepTask, stepPc, launchPotential, remainingLaunch]

/-- Running any schedule never increases the launch potential. -/
theorem launchPotential_run (sched : List Bool) (s : ConcState) :
    launchPotential (runSched sched s) ≤ launchPotential s := by
  induction sched generalizing s with
  | nil => simp [runSched]
  | cons w ws ih =>
    calc launchPotential (runSched (w :: ws) s)
        = launchPotential (runSched ws (stepTask s w)) := by simp [runSched]
      _ ≤ launchPotential (stepTask s w) := ih _
      _ ≤ launchPotential s := launchPotential_step s w

/-- The scan loop performs at most as many queries as its attempt budget. -/
theorem scanLoop_queries_le (p : ScanPage) (needle : String) (d : Direction) (ov : ℚ) :
    ∀ (fuel : Nat) (sy : ℚ), (scanLoop p needle d ov fuel sy).2.2 ≤ fuel := by
  intro fuel
  induction fuel with
  | zero => intro sy; simp [scanLoop]
  | succ k ih =>
    intro sy
    rcases h : p.findAt needle sy with _ | node
    · by_cases hb : (atBottomQ p sy && decide (d = Direction.down)) = true
      · simp [scanLoop, h, hb]
      · simp only [scanLoop, h, hb]
        simp only [Bool.false_eq_true, if_false]
        have := ih (clampScroll p (sy + ((step_delta p.viewportH ov d).2 : ℚ)))
        omega
    · simp [scanLoop, h]

/-- On the short sample page any scan with budget left stops at once at the
bottom without success. -/
theorem scanPageEmpty_loop (fuel : Nat) (needle : String) :
    scanLoop scanPageEmpty needle Direction.down (clamp_overlap (3 / 20)) (fuel + 1) 0 =
      (none, 0, 1) := by
  have hf : scanPageEmpty.findAt needle 0 = none := rfl
  have hb : atBottomQ scanPageEmpty 0 = true := by norm_num [atBottomQ, scanPageEmpty]
  simp [scanLoop, hf, hb]

/-! ## Claims -/

/-- C1 counterexample: on a document with 41 matched interactive elements,
get_state returns all 41 of them, so the returned list is not truncated to
40 entries. -/
theorem claim_C1_counterexample :
    ¬ ((get_state page41).interactive_elements.length ≤ 40) := by decide

/-- C1 (amended): get_state returns one InteractiveElement per element
matched by the DOM query, in document order with sequential ids, with no
truncation of the list. -/
theorem claim_C1_no_truncation (pg : StatePage) :
    (get_state pg).interactive_elements.length = pg.dom.length
    ∧ (get_state pg).interactive_elements.map InteractiveElement.id =
        List.range pg.dom.length
    ∧ (get_state pg).interactive_elements.map InteractiveElement.tag =
        pg.dom.map DomNode.tag := by
  refine ⟨?_, ?_, ?_⟩
  · simp [get_state, extract_interactive_elements]
  · show (((List.range pg.dom.length).zip pg.dom).map _).map _ = _
    rw [List.map_map]
    exact List.map_fst_zip _ _ (by simp)
  · show (((List.range pg.dom.length).zip pg.dom).map _).map _ = _
    rw [List.map_map]
    have h := List.map_snd_zip (List.range pg.dom.length) pg.dom (by simp)
    calc ((List.range pg.dom.length).zip pg.dom).map (fun p => p.2.tag)
        = (((List.range pg.dom.length).zip pg.dom).map Prod.snd).map DomNode.tag := by
          rw [List.map_map]; rfl
      _ = pg.dom.map DomNode.tag := by rw [h]

/-- C2 counterexample: with no startup lock, the interleaving in which both
start tasks pass the started check before either completes initialization
launches two browser processes, so two sessions are created. -/
theorem claim_C2_counterexample :
    runSched raceSched initConc = ⟨true, 2, TaskPc.finished, TaskPc.finished⟩
    ∧ (runSched raceSched initConc).launches ≠ 1 := by decide

/-- C2 (amended): init checks the started flag once, with no lock and no
re-check; a start that begins after a completed start creates no new
session, and each concurrent starter launches at most one browser process,
so two concurrent starts create at most two sessions rather than exactly
one. -/
theorem claim_C2_no_startup_lock (sched : List Bool) :
    runSched seqSched initConc = ⟨true, 1, TaskPc.finished, TaskPc.finished⟩
    ∧ initSeq readyState = (readyState, 0)
    ∧ (runSched sched initConc).launches ≤ 2 := by
  refine ⟨by decide, by decide, ?_⟩
  have h1 := launchPotential_run sched initConc
  have h2 : (runSched sched initConc).launches ≤ launchPotential (runSched sched initConc) :=
    Nat.le_add_right _ _ |>.trans (Nat.le_add_right _ _) |>.trans (le_of_eq rfl)
  have h3 : launchPotential initConc = 2 := by decide
  omega

/-- C3 counterexample: when the context teardown raises, driver.close and
playwright.stop are never attempted and the error propagates to the caller
instead of being swallowed. -/
theorem claim_C3_counterexample :
    (close readyState ⟨true, false, false⟩).attempted = ["context.close"]
    ∧ (close readyState ⟨true, false, false⟩).result =
        Except.error "context close failed" := ⟨rfl, rfl⟩

/-- C3 (amended): close runs all three teardowns inside one guarded block,
so whichever teardown is the first to raise, be it context, driver or
playwright, skips the remaining teardowns and its error propagates to the
caller; the finally block nevertheless always resets every reference; when
nothing raises, every held resource is released in order and Closed is
returned. -/
theorem claim_C3_close_teardown (st : ManagerState) (f : TeardownFaults) :
    (close st f).state = initialState
    ∧ (f = noFaults →
        (close st f).result = Except.ok "Closed"
        ∧ (close st f).attempted =
            (if st.context then ["context.close"] else [])
            ++ (if st.driver then ["driver.close"] else [])
            ++ (if st.playwright then ["playwright.stop"] else []))
    ∧ (st.context = true → f.contextFails = true →
        (close st f).attempted = ["context.close"]
        ∧ (close st f).result = Except.error "context close failed")
    ∧ ((st.context && f.contextFails) = false → st.driver = true → f.driverFails = true →
        (close st f).attempted =
          (if st.context then ["context.close"] else []) ++ ["driver.close"]
        ∧ (close st f).result = Except.error "driver close failed")
    ∧ ((st.context && f.contextFails) = false → (st.driver && f.driverFails) = false →
        st.playwright = true → f.playwrightFails = true →
        (close st f).attempted =
          (if st.context then ["context.close"] else [])
          ++ (if st.driver then ["driver.close"] else []) ++ ["playwright.stop"]
        ∧ (close st f).result = Except.error "playwright stop failed") := by
  obtain ⟨p, d, c, a, s⟩ := st
  obtain ⟨fc, fd, fp⟩ := f
  refine ⟨?_, ?_, ?_, ?_, ?_⟩
  · cases p <;> cases d <;> cases c <;> cases fc <;> cases fd <;> cases fp <;> rfl
  · intro hf
    cases hf
    cases p <;> cases d <;> cases c <;> exact ⟨rfl, rfl⟩
  · intro hc hfc
    cases hc
    cases hfc
    cases p <;> cases d <;> exact ⟨rfl, rfl⟩
  · intro h1 hd hfd
    cases hd
    cases hfd
    cases p <;> cases c <;> cases fc <;> cases fp <;>
      first
        | exact ⟨rfl, rfl⟩
        | simp_all
  · intro h1 h2 hpw hfp
    cases hpw
    cases hfp
    cases d <;> cases c <;> cases fc <;> cases fd <;>
      first
        | exact ⟨rfl, rfl⟩
        | simp_all

/-- C3 witness: on a fully started manager, a fault-free close releases all
three resources in order and returns Closed; a close whose context teardown
raises attempts nothing further; a raising driver teardown still follows a
successful context teardown but skips the playwright stop; and a raising
playwright stop follows both earlier teardowns, each error propagating. -/
theorem claim_C3_witness :
    (close readyState noFaults).state = initialState
    ∧ (close readyState noFaults).result = Except.ok "Closed"
    ∧ (close readyState noFaults).attempted =
        ["context.close", "driver.close", "playwright.stop"]
    ∧ (close readyState ⟨true, false, false⟩).attempted = ["context.close"]
    ∧ (close readyState ⟨false, true, false⟩).attempted =
        ["context.close", "driver.close"]
    ∧ (close readyState ⟨false, true, false⟩).result =
        Except.error "driver close failed"
    ∧ (close readyState ⟨false, false, true⟩).attempted =
        ["context.close", "driver.close", "playwright.stop"]
    ∧ (close readyState ⟨false, false, true⟩).result =
        Except.error "playwright stop failed" := by
  have h1 := claim_C3_close_teardown readyState noFaults
  have h2 := claim_C3_close_teardown readyState ⟨true, false, false⟩
  have h3 := claim_C3_close_teardown readyState ⟨false, true, false⟩
  have h4 := claim_C3_close_teardown readyState ⟨false, false, true⟩
  refine ⟨h1.1, (h1.2.1 rfl).1, ((h1.2.1 rfl).2).trans rfl, (h2.2.2.1 rfl rfl).1,
    ?_, ?_, ?_, ?_⟩
  · exact ((h3.2.2.2.1 rfl rfl rfl).1).trans rfl
  · exact (h3.2.2.2.1 rfl rfl rfl).2
  · exact ((h4.2.2.2.2 rfl rfl rfl rfl).1).trans rfl
  · exact (h4.2.2.2.2 rfl rfl rfl rfl).2

/-- C4 counterexample: the empty coordinate string leaves fewer than two
integer tokens after stripping, yet click in coordinates mode does not let
a malformed-input exception propagate for it: the argument guard converts
it into a structured error payload before the parser runs. -/
theorem claim_C4_counterexample :
    (findIntTokens (cleanPoint "").toList).length < 2
    ∧ click samplePage ClickMode.coordinates none none (some "") false =
        (ClickOutcome.payload
          (ClickReturn.missingArg "mode=coordinates requires: coordinates"), []) := by
  exact ⟨by decide, rfl⟩

/-- C4 (amended): the point parser maps the canonical marker and its
HTML-entity-escaped equivalent both to the pair of 120 and 340, and for
every nonempty input string in which fewer than two optionally signed
integer tokens remain after stripping the wrapper tags, it raises a
malformed-input ValueError that propagates out of click in coordinates
mode rather than being converted into a structured error payload; the
empty string alone is instead rejected by the missing-argument guard. -/
theorem claim_C4_point_parsing (s : String) (pg : ClickPage) (t sel : Option String) (e : Bool) :
    parse_point "<point>120 340</point>" = Except.ok (120, 340)
    ∧ parse_point "&lt;point&gt;120 340&lt;/point&gt;" = Except.ok (120, 340)
    ∧ (s ≠ "" → (findIntTokens (cleanPoint s).toList).length < 2 →
        parse_point s = Except.error ("Invalid point format: " ++ s)
        ∧ click pg ClickMode.coordinates t sel (some s) e =
            (ClickOutcome.raised ("Invalid point format: " ++ s), [])) := by
  refine ⟨by rfl, by rfl, ?_⟩
  intro hs hlen
  have hp : parse_point s = Except.error ("Invalid point format: " ++ s) := by
    rcases h : findIntTokens (cleanPoint s).toList with _ | ⟨a, _ | ⟨b, tl⟩⟩
    · simp only [parse_point]
      rw [h]
    · simp only [parse_point]
      rw [h]
    · rw [h] at hlen
      simp at hlen
      omega
  have hb : (s == "") = false := by simpa using hs
  refine ⟨hp, ?_⟩
  simp [click, strArgMissing, hb, hp]

/-- C4 witness: the canonical marker parses, a one-number marker raises,
and that ValueError propagates out of click in coordinates mode. -/
theorem claim_C4_witness :
    parse_point "<point>120 340</point>" = Except.ok (120, 340)
    ∧ parse_point "<point>120</point>" =
        Except.error "Invalid point format: <point>120</point>"
    ∧ click samplePage ClickMode.coordinates none none (some "<point>120</point>") false =
        (ClickOutcome.raised "Invalid point format: <point>120</point>", []) := by
  have h := claim_C4_point_parsing "<point>120</point>" samplePage none none false
  have h3 := h.2.2 (by decide) (by decide)
  exact ⟨h.1, h3.1, h3.2⟩

/-- C5: for every percent input on a page at least as tall as its viewport,
the computed percent-mode target lies between zero and the scrollable
range; percent zero lands at the top, percent one hundred at the
bottom-most valid offset, and percent one hundred fifty is treated exactly
as percent one hundred. -/
theorem claim_C5_percent_target (m : ScrollMetrics) (percent : ℚ)
    (h : m.viewportH ≤ m.docH) :
    0 ≤ percent_scroll_target m percent
    ∧ percent_scroll_target m percent ≤ m.docH - m.viewportH
    ∧ percent_scroll_target m 0 = 0
    ∧ percent_scroll_target m 100 = m.docH - m.viewportH
    ∧ percent_scroll_target m 150 = percent_scroll_target m 100 := by
  have hM : max 0 (m.docH - m.viewportH) = m.docH - m.viewportH :=
    max_eq_right (sub_nonneg.mpr h)
  have hz : pyTrunc (0 : ℚ) = 0 := by simpa using pyTrunc_intCast 0
  refine ⟨le_max_left _ _, ?_, ?_, ?_, ?_⟩
  · simp only [percent_scroll_target]
    rw [hM]
    exact max_le (sub_nonneg.mpr h) (min_le_right _ _)
  · simp only [percent_scroll_target]
    rw [show max (0 : ℚ) (min 0 100) = 0 by norm_num]
    rw [show ((m.docH : ℚ) - (m.viewportH : ℚ)) * ((0 : ℚ) / 100) = 0 by ring]
    rw [hz]
    rw [min_eq_left (le_max_left _ _), max_self]
  · simp only [percent_scroll_target]
    rw [show max (0 : ℚ) (min 100 100) = 100 by norm_num]
    rw [show ((m.docH : ℚ) - (m.viewportH : ℚ)) * ((100 : ℚ) / 100) =
        ((m.docH - m.viewportH : ℤ) : ℚ) by push_cast; ring]
    rw [pyTrunc_intCast, hM, min_self, hM]
  · simp only [percent_scroll_target]
    rw [show max (0 : ℚ) (min 150 100) = max 0 (min 100 100) by norm_num]

/-- C5 witness: on metrics of a 2000 pixel document with an 800 pixel
viewport the percent-mode target of any percent lies in the valid range
and the boundary cases land exactly. -/
theorem claim_C5_witness :
    0 ≤ percent_scroll_target sampleMetrics 37
    ∧ percent_scroll_target sampleMetrics 37 ≤ sampleMetrics.docH - sampleMetrics.viewportH
    ∧ percent_scroll_target sampleMetrics 0 = 0
    ∧ percent_scroll_target sampleMetrics 100 = sampleMetrics.docH - sampleMetrics.viewportH
    ∧ percent_scroll_target sampleMetrics 150 = percent_scroll_target sampleMetrics 100 :=
  claim_C5_percent_target sampleMetrics 37 (by decide)

/-- C6: the to-text scan loop always terminates, performing at most the
attempt-budget number of queries; with budget left, a query match scrolls
the node to twenty percent of the viewport from the top and stops the
loop, and a downward scan that is already at the page bottom stops at
once without success. -/
theorem claim_C6_scan_terminates (p : ScanPage) (needle : String) (d : Direction)
    (ov : ℚ) (fuel : Nat) (sy : ℚ) :
    (scanLoop p needle d ov fuel sy).2.2 ≤ fuel
    ∧ (∀ node, 0 < fuel → p.findAt needle sy = some node →
        scanLoop p needle d ov fuel sy =
          (some node, clampScroll p (sy + node.top - (p.viewportH : ℚ) * (1 / 5)), 1))
    ∧ (0 < fuel → p.findAt needle sy = none → atBottomQ p sy = true →
        d = Direction.down →
        scanLoop p needle d ov fuel sy = (none, sy, 1)) := by
  refine ⟨scanLoop_queries_le p needle d ov fuel sy, ?_, ?_⟩
  · intro node hfuel hfind
    obtain ⟨k, rfl⟩ : ∃ k, fuel = k + 1 := ⟨fuel - 1, by omega⟩
    simp [scanLoop, hfind]
  · intro hfuel hfind hbot hd
    obtain ⟨k, rfl⟩ : ∃ k, fuel = k + 1 := ⟨fuel - 1, by omega⟩
    simp [scanLoop, hfind, hbot, hd]

/-- C6 witness: a page that matches at once stops after one query with the
twenty-percent centering scroll, and a short page already at the bottom
stops after one query without success, within a budget of five. -/
theorem claim_C6_witness :
    scanLoop scanPageFound "contact" Direction.down (3 / 20) 5 0 =
      (some ⟨"P", "Contact us", 100⟩, 0, 1)
    ∧ scanLoop scanPageEmpty "contact" Direction.down (3 / 20) 5 0 = (none, 0, 1)
    ∧ (scanLoop scanPageEmpty "contact" Direction.down (3 / 20) 5 0).2.2 ≤ 5 := by
  have h1 := claim_C6_scan_terminates scanPageFound "contact" Direction.down (3 / 20) 5 0
  have h2 := claim_C6_scan_terminates scanPageEmpty "contact" Direction.down (3 / 20) 5 0
  refine ⟨?_, ?_, h2.1⟩
  · have e1 := h1.2.1 ⟨"P", "Contact us", 100⟩ (by decide) rfl
    rw [e1]
    norm_num [clampScroll, maxScrollQ, scanPageFound]
  · exact h2.2.2 (by decide) rfl (by norm_num [atBottomQ, scanPageEmpty]) rfl

/-- C7: for every nonempty selector that resolves to no element, click in
selector mode returns the structured not-found error payload naming the
selector, performs no click, and raises nothing. -/
theorem claim_C7_selector_not_found (pg : ClickPage) (sel : String) (t c : Option String)
    (e : Bool) (hs : sel ≠ "") (h : pg.hasSelector sel = false) :
    click pg ClickMode.selector t (some sel) c e =
      (ClickOutcome.payload
        (ClickReturn.notFound ("No element found for selector: " ++ sel)), []) := by
  have hb : (sel == "") = false := by simpa using hs
  simp [click, strArgMissing, hb, h]

/-- C7 witness: the absent selector of the spec scenario produces exactly
the documented error payload and no click. -/
theorem claim_C7_witness :
    click samplePage ClickMode.selector none (some "#absent") none false =
      (ClickOutcome.payload
        (ClickReturn.notFound "No element found for selector: #absent"), []) :=
  claim_C7_selector_not_found samplePage "#absent" none none false (by decide) rfl

/-- C8: a fault-free close returns Closed and resets every reference to its
constructor value; a second close straight after, under any fault pattern,
attempts no teardown and returns Closed again; and a subsequent start on
the reset state recreates exactly one fresh session. -/
theorem claim_C8_close_idempotent (st : ManagerState) (f : TeardownFaults) :
    (close st noFaults).result = Except.ok "Closed"
    ∧ (close st noFaults).state = initialState
    ∧ close (close st noFaults).state f = ⟨Except.ok "Closed", initialState, []⟩
    ∧ initSeq initialState = (readyState, 1) := by
  obtain ⟨p, d, c, a, s⟩ := st
  cases p <;> cases d <;> cases c <;> cases a <;> cases s <;> exact ⟨rfl, rfl, rfl, rfl⟩

/-- C9: when the to-text scan fails to locate the needle, scroll still
returns a status-ok payload carrying the before and after positions, the
final metrics, the anchor snippet and the echoed target text; the
not-found case never uses the status-error channel. -/
theorem claim_C9_to_text_not_found (p : ScanPage) (d : Direction) (ov : ℚ) (t : String)
    (ms : Nat) (sy0 : ℚ) (ht : t ≠ "")
    (hn : String.mk (trimList t.toList) ≠ "")
    (_hfail : (scanLoop p (String.mk (trimList t.toList)) d (clamp_overlap ov) ms sy0).1
      = none) :
    scroll_to_text p d ov (some t) ms sy0 =
      ScrollResult.ok
        ⟨"ok", "to_text", dirStr d, sy0,
          (scanLoop p (String.mk (trimList t.toList)) d (clamp_overlap ov) ms sy0).2.1,
          p.docH, p.viewportH,
          atBottomQ p
            (scanLoop p (String.mk (trimList t.toList)) d (clamp_overlap ov) ms sy0).2.1,
          p.anchorAt
            (scanLoop p (String.mk (trimList t.toList)) d (clamp_overlap ov) ms sy0).2.1,
          some t, none⟩ := by
  have hb : (t == "") = false := by simpa using ht
  simp [scroll_to_text, strArgMissing, hb, hn]
  exact hn

/-- C9 witness: on a short page where the needle is never found and the
scan stops at the bottom, the call returns the status-ok payload echoing
the target text. -/
theorem claim_C9_witness :
    scroll_to_text scanPageEmpty Direction.down (3 / 20) (some "Contact us") 12 0 =
      ScrollResult.ok
        ⟨"ok", "to_text", "down", 0, 0, 400, 800, true, "anchor", some "Contact us", none⟩ := by
  have hloop : scanLoop scanPageEmpty (String.mk (trimList "Contact us".toList))
      Direction.down (clamp_overlap (3 / 20)) 12 0 = (none, 0, 1) := by
    have h11 := scanPageEmpty_loop 11 (String.mk (trimList "Contact us".toList))
    norm_num at h11
    exact h11
  have h := claim_C9_to_text_not_found scanPageEmpty Direction.down (3 / 20) "Contact us"
    12 0 (by decide) (by decide) (by rw [hloop])
  rw [h, hloop]
  norm_num [atBottomQ, scanPageEmpty, dirStr]

/-- C10: step mode dispatches exactly the larger of one and the requested
step count scroll movements, so every steps input at most one, including
zero and negative values, produces exactly one overlap-sized movement in
the given direction. -/
theorem claim_C10_step_at_least_one (viewportH : Int) (overlap : ℚ) (d : Direction)
    (steps : Int) :
    (step_scroll_moves viewportH overlap d steps).length = (max 1 steps).toNat
    ∧ 1 ≤ (step_scroll_moves viewportH overlap d steps).length
    ∧ (steps ≤ 1 →
        step_scroll_moves viewportH overlap d steps =
          [step_delta viewportH (clamp_overlap overlap) d]) := by
  refine ⟨by simp [step_scroll_moves], ?_, ?_⟩
  · simp only [step_scroll_moves, List.length_replicate]
    have h1 : (1 : Int) ≤ max 1 steps := le_max_left 1 steps
    omega
  · intro h
    have hmax : max (1 : Int) steps = 1 := max_eq_left h
    simp [step_scroll_moves, hmax]

/-- C10 witness: a steps value of negative three still produces exactly one
downward movement of 680 pixels on an 800 pixel viewport with overlap
fifteen percent. -/
theorem claim_C10_witness :
    step_scroll_moves 800 (3 / 20) Direction.down (-3) =
      [step_delta 800 (clamp_overlap (3 / 20)) Direction.down]
    ∧ step_scroll_moves 800 (3 / 20) Direction.down (-3) = [(0, 680)] := by
  have h := claim_C10_step_at_least_one 800 (3 / 20) Direction.down (-3)
  refine ⟨h.2.2 (by decide), (h.2.2 (by decide)).trans ?_⟩
  norm_num [step_delta, clamp_overlap, pyTrunc]

end BrowserAgent
